import Mathlib

/-!
Shallow embedding of the maintenance / telemetry-reconciliation core of the
CWS Fleet DMS backend (Python / FastAPI / SQLAlchemy), together with theorems
settling the behavioural claims about it.

Conventions of the embedding:
* Nullable integer columns (SQLAlchemy `Column(Integer)`, `Column(Numeric)`)
  are `Option Int`; `Numeric(10,2)` decimals are embedded as integers (the
  claims only use their ordered-additive structure, which is preserved).
* `datetime` values are embedded as `Int` day counts; `timedelta(days = k)`
  is `+ k` and `(a - b).days` is `a - b` (exact at whole-day granularity,
  which is all the claims use).
* Python truthiness tests on nullable columns (`if x:`) are embedded by
  `truthyInt` / `truthyStr`: `None`, `0` and `""` are falsy.
* Code that can raise (`None + int` in Python is a `TypeError`) is embedded
  in `Except String`; an `Except.error` result models the exception escaping
  before any `db.commit()` persists state.
-/

namespace FleetDMS

/-- Python truthiness of a nullable integer column: `None` and `0` are falsy. -/
def truthyInt : Option Int → Bool
  | none => false
  | some n => n != 0

/-- Python truthiness of a nullable string column: `None` and `""` are falsy. -/
def truthyStr : Option String → Bool
  | none => false
  | some s => s != ""

/-- Python `a or b` for a nullable string with a string default. -/
def pyOrStr (a : Option String) (b : String) : String :=
  if truthyStr a then a.getD "" else b

/-- The fields of `models.Vehicle` used by the embedded endpoints
(`mileage`, `engine_hours`, `last_service_date` are nullable columns). -/
structure Vehicle where
  vehicle_id : Int := 0
  unit_number : Option String := none
  license_plate : Option String := none
  mileage : Option Int := none
  engine_hours : Option Int := none
  last_service_date : Option Int := none
  updated_at : Int := 0
  deriving Repr, DecidableEq

/-!
## C1 — mileage update of an already-linked vehicle in `background_sync_samsara`
(`src/backend/App/Api/endpoints/samsara.py` lines 831-838)

For a vehicle found by `samsara_id`, the code runs

    db_vehicle.unit_number = vehicle.get("name")
    db_vehicle.license_plate = vehicle.get("licensePlate")
    db_vehicle.mileage = miles
    if engine_hours is not None:
        db_vehicle.engine_hours = engine_hours
    db_vehicle.updated_at = datetime.utcnow()

where `miles` is the provider odometer already converted to miles
(line 770). The assignment to `mileage` is unconditional.
-/

/-- The existing-vehicle update branch of `background_sync_samsara`
(samsara.py lines 831-838), applied to the stored vehicle row. -/
def background_sync_update_vehicle (db_vehicle : Vehicle)
    (name license_plate : Option String) (miles : Int)
    (engine_hours : Option Int) (now : Int) : Vehicle :=
  { db_vehicle with
      unit_number := name
      license_plate := license_plate
      mileage := some miles
      engine_hours :=
        if engine_hours.isSome then engine_hours else db_vehicle.engine_hours
      updated_at := now }

/-- C1 (counterexample): with `vehicle.mileage = 50000` stored, reconciling a
provider snapshot whose converted odometer reading is `49000` sets the stored
mileage to `49000` — the decrease is applied, not ignored, so no monotonic
ratchet is in effect in `background_sync_samsara`. -/
theorem c1_counterexample :
    (background_sync_update_vehicle { mileage := some 50000 } none none 49000 none 0).mileage
        = some 49000 ∧ (49000 : Int) < 50000 := by
  constructor
  · rfl
  · decide

/-- C1 (amended): in `background_sync_samsara` the stored `vehicle.mileage` of
an already-linked vehicle is unconditionally overwritten with the converted
provider odometer reading — increases and decreases alike; in particular a
snapshot converting to `49000` over a stored `50000` yields `49000`, and one
converting to `51000` yields `51000`. -/
theorem c1_mileage_overwritten (db_vehicle : Vehicle)
    (name license_plate : Option String) (miles : Int)
    (engine_hours : Option Int) (now : Int) :
    (background_sync_update_vehicle db_vehicle name license_plate miles
        engine_hours now).mileage = some miles := rfl

/-!
## C2 — diagnostic-code deduplication in `background_sync_samsara`
(`src/backend/App/Api/endpoints/samsara.py` lines 902-938)

For each provider `code_data`, the code queries

    existing_code = db.query(models.DiagnosticCode).filter(
        models.DiagnosticCode.vehicle_id == vehicle_id,
        models.DiagnosticCode.code == code_value
    ).first()

and creates a new `DiagnosticCode` only when `existing_code` is `None`.
The filter does NOT restrict to unresolved records: any record with the
same `(vehicle_id, code)` pair — resolved or not — suppresses creation.
-/

/-- The fields of `models.DiagnosticCode` used here (`severity` and
`resolved_date` are nullable columns). -/
structure DiagnosticCode where
  vehicle_id : Int
  code : String
  description : String := ""
  severity : Option String := some "Medium"
  reported_date : Int := 0
  resolved_date : Option Int := none
  work_order_id : Option Int := none
  deriving Repr, DecidableEq

/-- A provider diagnostic event as returned by `fetch_diagnostic_codes`
(a dict; every field may be missing, modelled by `Option`). -/
structure ProviderDiagnostic where
  code : Option String := none
  description : Option String := none
  severity : Option String := none
  reported_date : Option Int := none
  deriving Repr, DecidableEq

/-- The `DiagnosticCode` row built at samsara.py lines 923-929 for a provider
event (`now` stands for `datetime.utcnow()`, used when the event carries no
parseable `reported_date`). -/
def mkDiagnosticCode (vehicle_id : Int) (code_data : ProviderDiagnostic)
    (now : Int) : DiagnosticCode :=
  { vehicle_id := vehicle_id
    code := code_data.code.getD "Unknown"
    description := code_data.description.getD ""
    severity := some (code_data.severity.getD "Medium")
    reported_date := code_data.reported_date.getD now }

/-- The diagnostic-code reconciliation loop of `background_sync_samsara`
(samsara.py lines 902-938): for each provider event, a new row is added to
the store iff no row with the same `(vehicle_id, code)` pair exists. -/
def processDiagnosticCodes (db : List DiagnosticCode) (vehicle_id : Int)
    (diagnostic_codes : List ProviderDiagnostic) (now : Int) :
    List DiagnosticCode :=
  diagnostic_codes.foldl
    (fun db code_data =>
      let code_value := code_data.code.getD "Unknown"
      if db.any (fun r => r.vehicle_id == vehicle_id && r.code == code_value)
      then db
      else db ++ [mkDiagnosticCode vehicle_id code_data now])
    db

/-- C2 (counterexample): the store holds a single, already-resolved record for
`(vehicle 1, "P0420")`; no unresolved record with that code exists, yet
reconciling a provider event with the same code creates nothing — the
deduplication query ignores resolution status. -/
theorem c2_counterexample :
    (∀ r ∈ [({ vehicle_id := 1, code := "P0420",
               resolved_date := some 100 } : DiagnosticCode)],
        r.resolved_date ≠ none) ∧
    processDiagnosticCodes
        [{ vehicle_id := 1, code := "P0420", resolved_date := some 100 }] 1
        [{ code := some "P0420" }] 0
      = [{ vehicle_id := 1, code := "P0420", resolved_date := some 100 }] := by
  constructor
  · intro r hr
    simp only [List.mem_singleton] at hr
    subst hr
    decide
  · rfl

/-- Processing a single event when no `(vehicle, code)` match exists appends
the new record. -/
lemma processDiag_single_new (db : List DiagnosticCode) (vid : Int)
    (cd : ProviderDiagnostic) (now : Int)
    (h : db.any
        (fun r => r.vehicle_id == vid && r.code == cd.code.getD "Unknown")
      = false) :
    processDiagnosticCodes db vid [cd] now
      = db ++ [mkDiagnosticCode vid cd now] := by
  simp only [processDiagnosticCodes, List.foldl_cons, List.foldl_nil, h]
  rfl

/-- Processing a single event when some `(vehicle, code)` match exists —
resolved or not — leaves the store unchanged. -/
lemma processDiag_single_dup (db : List DiagnosticCode) (vid : Int)
    (cd : ProviderDiagnostic) (now : Int)
    (h : db.any
        (fun r => r.vehicle_id == vid && r.code == cd.code.getD "Unknown")
      = true) :
    processDiagnosticCodes db vid [cd] now = db := by
  simp only [processDiagnosticCodes, List.foldl_cons, List.foldl_nil, h]
  rfl

/-- C2 (amended): during reconciliation a `DiagnosticCode` record for
`(vehicle, code)` is created iff no record with that pair — resolved or not —
exists; reconciling the same provider event twice creates exactly one record;
and when a record with the code exists but is resolved, no new record is
created (creation is keyed on the pair alone, not on unresolved status). -/
theorem c2_dedup_by_pair :
    (∀ (db : List DiagnosticCode) (vid : Int) (cd : ProviderDiagnostic)
        (now : Int),
      db.any (fun r => r.vehicle_id == vid && r.code == cd.code.getD "Unknown")
          = false →
        processDiagnosticCodes db vid [cd] now
          = db ++ [mkDiagnosticCode vid cd now]) ∧
    (∀ (db : List DiagnosticCode) (vid : Int) (cd : ProviderDiagnostic)
        (now : Int),
      db.any (fun r => r.vehicle_id == vid && r.code == cd.code.getD "Unknown")
          = true →
        processDiagnosticCodes db vid [cd] now = db) ∧
    (∀ (db : List DiagnosticCode) (vid : Int) (cd : ProviderDiagnostic)
        (now now' : Int),
      processDiagnosticCodes (processDiagnosticCodes db vid [cd] now) vid
          [cd] now'
        = processDiagnosticCodes db vid [cd] now) := by
  refine ⟨processDiag_single_new, processDiag_single_dup, ?_⟩
  intro db vid cd now now'
  by_cases h : db.any
      (fun r => r.vehicle_id == vid && r.code == cd.code.getD "Unknown")
      = true
  · rw [processDiag_single_dup db vid cd now h,
      processDiag_single_dup db vid cd now' h]
  · rw [Bool.not_eq_true] at h
    rw [processDiag_single_new db vid cd now h]
    apply processDiag_single_dup
    simp [List.any_append, mkDiagnosticCode]

/-- C2 (witness): on an empty store, reconciling one event for vehicle `1`
creates the record once, and reconciling it a second time changes nothing. -/
theorem c2_dedup_by_pair_witness :
    processDiagnosticCodes [] 1 [{ code := some "P0420" }] 0
        = [mkDiagnosticCode 1 { code := some "P0420" } 0] ∧
    processDiagnosticCodes
        (processDiagnosticCodes [] 1 [{ code := some "P0420" }] 0) 1
        [{ code := some "P0420" }] 7
      = processDiagnosticCodes [] 1 [{ code := some "P0420" }] 0 := by
  constructor
  · exact c2_dedup_by_pair.1 [] 1 { code := some "P0420" } 0 rfl
  · exact c2_dedup_by_pair.2.2 [] 1 { code := some "P0420" } 0 7

/-!
## Data model for the maintenance endpoints
(`models.MaintenanceSchedule`, `models.VehicleMaintenanceSchedule`)
-/

/-- The fields of `models.MaintenanceSchedule` (template): three boolean
dimension flags and three nullable interval columns. -/
structure MaintenanceSchedule where
  name : String := ""
  is_mileage_based : Bool := false
  is_time_based : Bool := false
  is_engine_hours_based : Bool := false
  mileage_interval : Option Int := none
  time_interval_days : Option Int := none
  engine_hours_interval : Option Int := none
  deriving Repr, DecidableEq

/-- The fields of `models.VehicleMaintenanceSchedule` (assignment row): all
checkpoint columns are nullable. -/
structure VehicleMaintenanceSchedule where
  last_performed_date : Option Int := none
  last_performed_mileage : Option Int := none
  last_performed_engine_hours : Option Int := none
  next_due_date : Option Int := none
  next_due_mileage : Option Int := none
  next_due_engine_hours : Option Int := none
  deriving Repr, DecidableEq

/-!
## C3 — priority banding in `get_maintenance_due`
(`src/backend/App/Api/endpoints/dashboard.py` lines 122-138)

    priority = "low"
    if maintenance.is_mileage_based and vehicle.mileage and schedule.next_due_mileage:
        miles_overdue = vehicle.mileage - schedule.next_due_mileage
        if miles_overdue > 1000: priority = "high"
        elif miles_overdue > 500: priority = "medium"
    if maintenance.is_time_based and schedule.next_due_date:
        days_overdue = (datetime.utcnow() - schedule.next_due_date).days
        if days_overdue > 30: priority = "high"
        elif days_overdue > 14: priority = "medium"

The second block assigns over whatever the first block computed: the time
dimension, evaluated last, overwrites the mileage band whenever it fires.
-/

/-- The per-item priority computation of `get_maintenance_due`
(dashboard.py lines 122-138). -/
def maintenanceDuePriority (maintenance : MaintenanceSchedule)
    (vehicle : Vehicle) (schedule : VehicleMaintenanceSchedule)
    (now : Int) : String :=
  let priority := "low"
  let priority :=
    if maintenance.is_mileage_based && truthyInt vehicle.mileage
        && truthyInt schedule.next_due_mileage then
      let miles_overdue := vehicle.mileage.getD 0 - schedule.next_due_mileage.getD 0
      if miles_overdue > 1000 then "high"
      else if miles_overdue > 500 then "medium"
      else priority
    else priority
  if maintenance.is_time_based && schedule.next_due_date.isSome then
    let days_overdue := now - schedule.next_due_date.getD 0
    if days_overdue > 30 then "high"
    else if days_overdue > 14 then "medium"
    else priority
  else priority

/-- C3 (counterexample): a schedule with both mileage and time dimensions
enabled, overdue by 2000 miles (a High band on the mileage dimension alone)
and by 20 days (a Medium band on the time dimension): the reported priority
is "medium", not the most urgent band "high" — the time block overwrites the
mileage band. -/
theorem c3_counterexample :
    maintenanceDuePriority
        { is_mileage_based := true, is_time_based := true }
        { mileage := some 12000 }
        { next_due_mileage := some 10000, next_due_date := some 0 } 20
      = "medium" ∧
    (12000 - 10000 : Int) > 1000 ∧ ("medium" : String) ≠ "high" := by
  refine ⟨rfl, by decide, by decide⟩

/-- C3 (amended): the priority is computed sequentially, mileage band first,
then the time band assigns over it whenever the time dimension fires: when the
date is overdue by more than 14 days the output is the time band alone ("high"
past 30 days, else "medium") regardless of the mileage band; only when the
time dimension does not fire is the output the mileage band (">1000" miles
gives "high", ">500" gives "medium", otherwise "low" — so exactly 1000 miles
overdue gives "medium"). -/
theorem c3_priority_overwrite :
    (∀ (m : MaintenanceSchedule) (v : Vehicle)
        (a : VehicleMaintenanceSchedule) (now : Int),
      (m.is_time_based && a.next_due_date.isSome) = true →
      14 < now - a.next_due_date.getD 0 →
        maintenanceDuePriority m v a now
          = if 30 < now - a.next_due_date.getD 0 then "high" else "medium") ∧
    (∀ (m : MaintenanceSchedule) (v : Vehicle)
        (a : VehicleMaintenanceSchedule) (now : Int),
      ((m.is_time_based && a.next_due_date.isSome) = true →
          now - a.next_due_date.getD 0 ≤ 14) →
        maintenanceDuePriority m v a now
          = if (m.is_mileage_based && truthyInt v.mileage
                && truthyInt a.next_due_mileage) = true then
              (if 1000 < v.mileage.getD 0 - a.next_due_mileage.getD 0 then "high"
               else if 500 < v.mileage.getD 0 - a.next_due_mileage.getD 0 then "medium"
               else "low")
            else "low") := by
  constructor
  · intro m v a now htime hdays
    simp only [maintenanceDuePriority]
    rw [if_pos htime]
    by_cases h30 : 30 < now - a.next_due_date.getD 0
    · rw [if_pos h30, if_pos h30]
    · rw [if_neg h30, if_neg h30, if_pos hdays]
  · intro m v a now htime
    simp only [maintenanceDuePriority]
    by_cases ht : (m.is_time_based && a.next_due_date.isSome) = true
    · have hle := htime ht
      have h1 : ¬ (30 < now - a.next_due_date.getD 0) := by omega
      have h2 : ¬ (14 < now - a.next_due_date.getD 0) := by omega
      rw [if_pos ht, if_neg h1, if_neg h2]
    · rw [if_neg ht]

/-- C3 (witness): instantiating the amended theorem — time fires Medium over a
mileage High, yielding "medium"; and with the time dimension quiet, exactly
1000 miles overdue yields the mileage band "medium". -/
theorem c3_priority_overwrite_witness :
    maintenanceDuePriority
        { is_mileage_based := true, is_time_based := true }
        { mileage := some 12000 }
        { next_due_mileage := some 10000, next_due_date := some 0 } 20
      = "medium" ∧
    maintenanceDuePriority
        { is_mileage_based := true }
        { mileage := some 16000 }
        { next_due_mileage := some 15000 } 0
      = "medium" := by
  constructor
  · have h := c3_priority_overwrite.1
        { is_mileage_based := true, is_time_based := true }
        { mileage := some 12000 }
        { next_due_mileage := some 10000, next_due_date := some 0 } 20
        (by decide) (by decide)
    rw [h]
    decide
  · have h := c3_priority_overwrite.2
        { is_mileage_based := true }
        { mileage := some 16000 }
        { next_due_mileage := some 15000 } 0
        (by intro hc; exact absurd hc (by decide))
    rw [h]
    decide

/-!
## C4 — next-due seeding in `assign_maintenance_schedule`
(`src/backend/App/Api/endpoints/maintenance.py` lines 414-446)

    next_due_mileage = None
    if schedule.is_mileage_based and schedule.mileage_interval:
        if assignment.last_performed_mileage:
            next_due_mileage = assignment.last_performed_mileage + schedule.mileage_interval
        elif vehicle.mileage:
            next_due_mileage = vehicle.mileage + schedule.mileage_interval

There is no `?? 0` fallback: when both the supplied checkpoint and the
vehicle's current mileage are absent (or zero), `next_due_mileage` stays
`None`.
-/

/-- The request body `schemas.VehicleMaintenanceScheduleCreate`. -/
structure VehicleMaintenanceScheduleCreate where
  last_performed_date : Option Int := none
  last_performed_mileage : Option Int := none
  last_performed_engine_hours : Option Int := none
  deriving Repr, DecidableEq

/-- The next-due computation and row construction of
`assign_maintenance_schedule` (maintenance.py lines 414-446); `now` stands
for `datetime.utcnow()`. -/
def assign_maintenance_schedule (schedule : MaintenanceSchedule)
    (vehicle : Vehicle) (assignment : VehicleMaintenanceScheduleCreate)
    (now : Int) : VehicleMaintenanceSchedule :=
  let next_due_date :=
    if schedule.is_time_based && truthyInt schedule.time_interval_days then
      if assignment.last_performed_date.isSome then
        some (assignment.last_performed_date.getD 0
          + schedule.time_interval_days.getD 0)
      else
        some (now + schedule.time_interval_days.getD 0)
    else none
  let next_due_mileage :=
    if schedule.is_mileage_based && truthyInt schedule.mileage_interval then
      if truthyInt assignment.last_performed_mileage then
        some (assignment.last_performed_mileage.getD 0
          + schedule.mileage_interval.getD 0)
      else if truthyInt vehicle.mileage then
        some (vehicle.mileage.getD 0 + schedule.mileage_interval.getD 0)
      else none
    else none
  let next_due_engine_hours :=
    if schedule.is_engine_hours_based
        && truthyInt schedule.engine_hours_interval then
      if truthyInt assignment.last_performed_engine_hours then
        some (assignment.last_performed_engine_hours.getD 0
          + schedule.engine_hours_interval.getD 0)
      else if truthyInt vehicle.engine_hours then
        some (vehicle.engine_hours.getD 0
          + schedule.engine_hours_interval.getD 0)
      else none
    else none
  { last_performed_date := assignment.last_performed_date
    last_performed_mileage := assignment.last_performed_mileage
    last_performed_engine_hours := assignment.last_performed_engine_hours
    next_due_date := next_due_date
    next_due_mileage := next_due_mileage
    next_due_engine_hours := next_due_engine_hours }

/-- C4 (counterexample): a mileage-based template with interval 5000,
assigned with no supplied checkpoint to a vehicle with no stored mileage:
the persisted `next_due_mileage` is `None`, not `0 + 5000 = 5000` — there is
no `?? 0` fallback and the field is left unpopulated. -/
theorem c4_counterexample :
    (assign_maintenance_schedule
        { is_mileage_based := true, mileage_interval := some 5000 }
        { mileage := none } { } 0).next_due_mileage
      = none ∧ (none : Option Int) ≠ some 5000 := by
  refine ⟨rfl, by decide⟩

/-- C4 (amended): for a mileage-based template with a nonzero interval, the
persisted `next_due_mileage` equals the caller-supplied
`last_performed_mileage` plus the interval when that value is present and
nonzero; otherwise the vehicle's current mileage plus the interval when that
is present and nonzero; otherwise it is left `None` (there is no `0`
fallback). -/
theorem c4_next_due_mileage_seed :
    (∀ (s : MaintenanceSchedule) (v : Vehicle)
        (a : VehicleMaintenanceScheduleCreate) (now : Int),
      (s.is_mileage_based && truthyInt s.mileage_interval) = true →
      truthyInt a.last_performed_mileage = true →
        (assign_maintenance_schedule s v a now).next_due_mileage
          = some (a.last_performed_mileage.getD 0
              + s.mileage_interval.getD 0)) ∧
    (∀ (s : MaintenanceSchedule) (v : Vehicle)
        (a : VehicleMaintenanceScheduleCreate) (now : Int),
      (s.is_mileage_based && truthyInt s.mileage_interval) = true →
      truthyInt a.last_performed_mileage = false →
      truthyInt v.mileage = true →
        (assign_maintenance_schedule s v a now).next_due_mileage
          = some (v.mileage.getD 0 + s.mileage_interval.getD 0)) ∧
    (∀ (s : MaintenanceSchedule) (v : Vehicle)
        (a : VehicleMaintenanceScheduleCreate) (now : Int),
      truthyInt a.last_performed_mileage = false →
      truthyInt v.mileage = false →
        (assign_maintenance_schedule s v a now).next_due_mileage = none) := by
  refine ⟨?_, ?_, ?_⟩
  · intro s v a now hs hl
    simp [assign_maintenance_schedule, hs, hl]
  · intro s v a now hs hl hv
    simp [assign_maintenance_schedule, hs, hl, hv]
  · intro s v a now hl hv
    by_cases hs : (s.is_mileage_based && truthyInt s.mileage_interval) = true
    · simp [assign_maintenance_schedule, hs, hl, hv]
    · simp [assign_maintenance_schedule, hs]

/-- C4 (witness): instantiating the amended theorem on a template with
interval 5000 — supplied checkpoint 10000 seeds 15000; no checkpoint but
vehicle mileage 16000 seeds 21000; neither source seeds nothing. -/
theorem c4_next_due_mileage_seed_witness :
    (assign_maintenance_schedule
        { is_mileage_based := true, mileage_interval := some 5000 }
        { mileage := some 16000 }
        { last_performed_mileage := some 10000 } 0).next_due_mileage
      = some 15000 ∧
    (assign_maintenance_schedule
        { is_mileage_based := true, mileage_interval := some 5000 }
        { mileage := some 16000 } { } 0).next_due_mileage
      = some 21000 ∧
    (assign_maintenance_schedule
        { is_mileage_based := true, mileage_interval := some 5000 }
        { } { } 0).next_due_mileage = none := by
  refine ⟨?_, ?_, ?_⟩
  · exact c4_next_due_mileage_seed.1
      { is_mileage_based := true, mileage_interval := some 5000 }
      { mileage := some 16000 } { last_performed_mileage := some 10000 } 0
      (by decide) (by decide)
  · exact c4_next_due_mileage_seed.2.1
      { is_mileage_based := true, mileage_interval := some 5000 }
      { mileage := some 16000 } { } 0 (by decide) (by decide) (by decide)
  · exact c4_next_due_mileage_seed.2.2
      { is_mileage_based := true, mileage_interval := some 5000 }
      { } { } 0 (by decide) (by decide)

/-!
## C5 / C6 — due-status flags in `get_vehicle_maintenance_schedules`
(`src/backend/App/Api/endpoints/maintenance.py` lines 317-339)

    is_overdue = False
    is_due_soon = False
    if schedule.is_time_based and vehicle_schedule.next_due_date:
        if vehicle_schedule.next_due_date < now: is_overdue = True
        elif vehicle_schedule.next_due_date <= (now + timedelta(days=7)): is_due_soon = True
    if schedule.is_mileage_based and vehicle_schedule.next_due_mileage and vehicle.mileage:
        if vehicle_schedule.next_due_mileage < vehicle.mileage: is_overdue = True
        elif (vehicle_schedule.next_due_mileage - vehicle.mileage) <= 500: is_due_soon = True
    if schedule.is_engine_hours_based and vehicle_schedule.next_due_engine_hours and vehicle.engine_hours:
        if vehicle_schedule.next_due_engine_hours < vehicle.engine_hours: is_overdue = True
        elif (vehicle_schedule.next_due_engine_hours - vehicle.engine_hours) <= 50: is_due_soon = True

Each block only ever sets a flag to `True`, so the blocks combine by
logical OR; the `elif` of the mileage block fires already at difference 0.
-/

/-- The per-row `(is_overdue, is_due_soon)` computation of
`get_vehicle_maintenance_schedules` (maintenance.py lines 317-339). -/
def dueStatusFlags (schedule : MaintenanceSchedule)
    (vehicle_schedule : VehicleMaintenanceSchedule) (vehicle : Vehicle)
    (now : Int) : Bool × Bool :=
  let is_overdue := false
  let is_due_soon := false
  let p1 : Bool × Bool :=
    if schedule.is_time_based && vehicle_schedule.next_due_date.isSome then
      if vehicle_schedule.next_due_date.getD 0 < now then (true, is_due_soon)
      else if vehicle_schedule.next_due_date.getD 0 ≤ now + 7 then
        (is_overdue, true)
      else (is_overdue, is_due_soon)
    else (is_overdue, is_due_soon)
  let p2 : Bool × Bool :=
    if schedule.is_mileage_based
        && truthyInt vehicle_schedule.next_due_mileage
        && truthyInt vehicle.mileage then
      if vehicle_schedule.next_due_mileage.getD 0 < vehicle.mileage.getD 0 then
        (true, p1.2)
      else if vehicle_schedule.next_due_mileage.getD 0 - vehicle.mileage.getD 0
          ≤ 500 then
        (p1.1, true)
      else p1
    else p1
  if schedule.is_engine_hours_based
      && truthyInt vehicle_schedule.next_due_engine_hours
      && truthyInt vehicle.engine_hours then
    if vehicle_schedule.next_due_engine_hours.getD 0
        < vehicle.engine_hours.getD 0 then
      (true, p2.2)
    else if vehicle_schedule.next_due_engine_hours.getD 0
        - vehicle.engine_hours.getD 0 ≤ 50 then
      (p2.1, true)
    else p2
  else p2

/-- For a template with only the mileage dimension enabled and nonzero
next-due / current mileage values, the flags reduce to the mileage block. -/
lemma dueStatusFlags_mileage_only (s : MaintenanceSchedule)
    (a : VehicleMaintenanceSchedule) (v : Vehicle) (now nd m : Int)
    (hsm : s.is_mileage_based = true) (hst : s.is_time_based = false)
    (hse : s.is_engine_hours_based = false)
    (hnd : a.next_due_mileage = some nd) (hm : v.mileage = some m)
    (hnd0 : nd ≠ 0) (hm0 : m ≠ 0) :
    dueStatusFlags s a v now =
      if nd < m then (true, false)
      else if nd - m ≤ 500 then (false, true)
      else (false, false) := by
  simp [dueStatusFlags, hsm, hst, hse, hnd, hm, truthyInt, hnd0, hm0]

/-- C5 (counterexample): a mileage-only template with
`next_due_mileage = 1000` and `vehicle.mileage = 1000` (difference exactly 0):
the code reports `is_due_soon = true`, while the claim's
`0 < next_due_mileage - vehicle.mileage` bound says false. -/
theorem c5_counterexample :
    (dueStatusFlags { is_mileage_based := true }
        { next_due_mileage := some 1000 } { mileage := some 1000 } 0).2
      = true ∧ ¬ (0 < (1000 : Int) - 1000) := by
  exact ⟨by decide, by decide⟩

/-- C5 (amended): for every listed assignment whose template enables only the
mileage dimension, with nonzero `next_due_mileage` and vehicle mileage, the
computed `is_due_soon` flag is true iff
`0 ≤ next_due_mileage - vehicle.mileage ≤ 500` — the lower bound is
inclusive, so a difference of exactly 0 also reports due-soon. -/
theorem c5_due_soon_band (s : MaintenanceSchedule)
    (a : VehicleMaintenanceSchedule) (v : Vehicle) (now nd m : Int)
    (hsm : s.is_mileage_based = true) (hst : s.is_time_based = false)
    (hse : s.is_engine_hours_based = false)
    (hnd : a.next_due_mileage = some nd) (hm : v.mileage = some m)
    (hnd0 : nd ≠ 0) (hm0 : m ≠ 0) :
    (dueStatusFlags s a v now).2 = true ↔ (0 ≤ nd - m ∧ nd - m ≤ 500) := by
  rw [dueStatusFlags_mileage_only s a v now nd m hsm hst hse hnd hm hnd0 hm0]
  by_cases h1 : nd < m
  · simp only [if_pos h1]
    simp
    omega
  · by_cases h2 : nd - m ≤ 500
    · simp only [if_neg h1, if_pos h2]
      simp
      omega
    · simp only [if_neg h1, if_neg h2]
      simp
      omega

/-- C5 (witness): at `next_due_mileage = 1000`, `vehicle.mileage = 600`
(difference 400, inside the band) the flag is true. -/
theorem c5_due_soon_band_witness :
    (dueStatusFlags { is_mileage_based := true }
        { next_due_mileage := some 1000 } { mileage := some 600 } 0).2
      = true := by
  exact (c5_due_soon_band { is_mileage_based := true }
      { next_due_mileage := some 1000 } { mileage := some 600 } 0 1000 600
      rfl rfl rfl rfl rfl (by decide) (by decide)).mpr (by decide)

/-- C6 (confirmed): for every listed assignment whose template enables only
the mileage dimension, with nonzero `next_due_mileage` and vehicle mileage,
`is_overdue` is true iff `vehicle.mileage > next_due_mileage` (strict); in
particular at `mileage = next_due_mileage` and at
`mileage = next_due_mileage - 1` it is false, and at
`mileage = next_due_mileage - 1` the difference 1 ≤ 500 makes `is_due_soon`
true. -/
theorem c6_overdue_strict (s : MaintenanceSchedule)
    (a : VehicleMaintenanceSchedule) (v : Vehicle) (now nd m : Int)
    (hsm : s.is_mileage_based = true) (hst : s.is_time_based = false)
    (hse : s.is_engine_hours_based = false)
    (hnd : a.next_due_mileage = some nd) (hm : v.mileage = some m)
    (hnd0 : nd ≠ 0) (hm0 : m ≠ 0) :
    ((dueStatusFlags s a v now).1 = true ↔ nd < m) ∧
    (m = nd → (dueStatusFlags s a v now).1 = false) ∧
    (m + 1 = nd →
      (dueStatusFlags s a v now).1 = false
        ∧ (dueStatusFlags s a v now).2 = true) := by
  rw [dueStatusFlags_mileage_only s a v now nd m hsm hst hse hnd hm hnd0 hm0]
  refine ⟨?_, ?_, ?_⟩
  · by_cases h1 : nd < m
    · simp only [if_pos h1]
      simp
      omega
    · by_cases h2 : nd - m ≤ 500
      · simp only [if_neg h1, if_pos h2]
        simp
        omega
      · simp only [if_neg h1, if_neg h2]
        simp
        omega
  · intro he
    have h1 : ¬ (nd < m) := by omega
    by_cases h2 : nd - m ≤ 500
    · simp only [if_neg h1, if_pos h2]
    · simp only [if_neg h1, if_neg h2]
  · intro he
    have h1 : ¬ (nd < m) := by omega
    have h2 : nd - m ≤ 500 := by omega
    simp only [if_neg h1, if_pos h2]
    simp

/-- C6 (witness): at `next_due_mileage = 15000` and `vehicle.mileage = 14999`
the row is not overdue and is due-soon; at `15001` it is overdue. -/
theorem c6_overdue_strict_witness :
    ((dueStatusFlags { is_mileage_based := true }
        { next_due_mileage := some 15000 } { mileage := some 14999 } 0).1
      = false ∧
     (dueStatusFlags { is_mileage_based := true }
        { next_due_mileage := some 15000 } { mileage := some 14999 } 0).2
      = true) ∧
    (dueStatusFlags { is_mileage_based := true }
        { next_due_mileage := some 15000 } { mileage := some 15001 } 0).1
      = true := by
  constructor
  · exact (c6_overdue_strict { is_mileage_based := true }
      { next_due_mileage := some 15000 } { mileage := some 14999 } 0
      15000 14999 rfl rfl rfl rfl rfl (by decide) (by decide)).2.2 (by decide)
  · exact (c6_overdue_strict { is_mileage_based := true }
      { next_due_mileage := some 15000 } { mileage := some 15001 } 0
      15000 15001 rfl rfl rfl rfl rfl (by decide) (by decide)).1.mpr
      (by decide)

/-!
## C7 — stat-type batching and result merging in `fetch_vehicle_stats`
(`src/backend/App/Api/endpoints/samsara.py` lines 109-172)

    batches = []
    for i in range(0, len(types), 3):
        batches.append(types[i:i+3])
    combined_stats = {}
    for batch in batches:
        if len(batch) > 3: batch = batch[:3]
        ... one provider call per batch; on non-200 or exception: continue ...
        combined_stats.update(batch_data)

The consecutive 3-slices of the `range(0, len, 3)` loop are embedded by the
structurally recursive `chunk3`; the `dict` accumulator by an ordered
association list with `dict.update` semantics; a failed provider call by a
`none` result, which leaves the accumulator untouched.
-/

/-- The batch list built at samsara.py lines 111-113: consecutive slices of
at most 3 elements (`types[i:i+3]` for `i = 0, 3, 6, ...`). -/
def chunk3 {α : Type} : List α → List (List α)
  | [] => []
  | [a] => [[a]]
  | [a, b] => [[a, b]]
  | a :: b :: c :: rest => [a, b, c] :: chunk3 rest

/-- The batches concatenate back to the original type list. -/
theorem chunk3_flatten {α : Type} : (l : List α) → (chunk3 l).flatten = l
  | [] => rfl
  | [_] => rfl
  | [_, _] => rfl
  | a :: b :: c :: rest => by
      simp only [chunk3, List.flatten_cons, chunk3_flatten rest,
        List.cons_append, List.nil_append]

/-- Every batch holds at most 3 stat types. -/
theorem chunk3_length_le {α : Type} :
    ∀ (l : List α), ∀ b ∈ chunk3 l, b.length ≤ 3
  | [], b, hb => by simp [chunk3] at hb
  | [a], b, hb => by
      simp only [chunk3, List.mem_singleton] at hb
      subst hb
      simp
  | [a, a'], b, hb => by
      simp only [chunk3, List.mem_singleton] at hb
      subst hb
      simp
  | a :: a' :: a'' :: rest, b, hb => by
      simp only [chunk3, List.mem_cons] at hb
      rcases hb with rfl | hb
      · simp
      · exact chunk3_length_le rest b hb

/-- A type list of length 8 is split into exactly 3 batches of sizes 3, 3, 2. -/
theorem chunk3_sizes_8 {α : Type} (l : List α) (h : l.length = 8) :
    (chunk3 l).map List.length = [3, 3, 2] := by
  rcases l with _ | ⟨a1, l⟩
  · simp at h
  rcases l with _ | ⟨a2, l⟩
  · simp at h
  rcases l with _ | ⟨a3, l⟩
  · simp at h
  rcases l with _ | ⟨a4, l⟩
  · simp at h
  rcases l with _ | ⟨a5, l⟩
  · simp at h
  rcases l with _ | ⟨a6, l⟩
  · simp at h
  rcases l with _ | ⟨a7, l⟩
  · simp at h
  rcases l with _ | ⟨a8, l⟩
  · simp at h
  rcases l with _ | ⟨a9, l⟩
  · rfl
  · simp at h

/-- Python `dict` assignment `d[k] = v` on an insertion-ordered association
list: overwrite in place when the key exists, append otherwise. -/
def dictInsert {V : Type} (d : List (String × V)) (k : String) (v : V) :
    List (String × V) :=
  if d.any (fun p => p.1 == k) then
    d.map (fun p => if p.1 == k then (k, v) else p)
  else d ++ [(k, v)]

/-- Python `d.update(new)`: assign every pair of `new` into `d` in order. -/
def dictUpdate {V : Type} (d new : List (String × V)) : List (String × V) :=
  new.foldl (fun d p => dictInsert d p.1 p.2) d

/-- Key membership after a single `dict` assignment. -/
lemma mem_keys_dictInsert {V : Type} (d : List (String × V)) (k : String)
    (v : V) (k' : String) :
    k' ∈ (dictInsert d k v).map Prod.fst
      ↔ k' ∈ d.map Prod.fst ∨ k' = k := by
  unfold dictInsert
  by_cases h : d.any (fun p => p.1 == k) = true
  · rw [if_pos h]
    simp only [List.map_map, List.mem_map, Function.comp]
    constructor
    · rintro ⟨p, hp, hfst⟩
      by_cases hk : (p.1 == k) = true
      · right
        rw [if_pos hk] at hfst
        exact hfst.symm
      · left
        rw [if_neg hk] at hfst
        exact ⟨p, hp, hfst⟩
    · rintro (⟨p, hp, hfst⟩ | rfl)
      · by_cases hk : (p.1 == k) = true
        · refine ⟨p, hp, ?_⟩
          rw [if_pos hk]
          have hpk : p.1 = k := by simpa using hk
          show k = k'
          rw [← hpk]
          exact hfst
        · exact ⟨p, hp, by rw [if_neg hk]; exact hfst⟩
      · obtain ⟨p, hp, hpk⟩ := List.any_eq_true.mp h
        refine ⟨p, hp, ?_⟩
        rw [if_pos hpk]
  · rw [if_neg h]
    simp

/-- Key membership after `d.update(new)`: the keys of `d` and of `new`. -/
lemma mem_keys_dictUpdate {V : Type} (new d : List (String × V))
    (k' : String) :
    k' ∈ (dictUpdate d new).map Prod.fst
      ↔ k' ∈ d.map Prod.fst ∨ ∃ p ∈ new, p.1 = k' := by
  induction new generalizing d with
  | nil => simp [dictUpdate]
  | cons p t ih =>
      show k' ∈ (dictUpdate (dictInsert d p.1 p.2) t).map Prod.fst ↔ _
      rw [ih (dictInsert d p.1 p.2), mem_keys_dictInsert]
      simp only [List.mem_cons]
      constructor
      · rintro ((hd | rfl) | ⟨q, hq, hqk⟩)
        · exact Or.inl hd
        · exact Or.inr ⟨p, Or.inl rfl, rfl⟩
        · exact Or.inr ⟨q, Or.inr hq, hqk⟩
      · rintro (hd | ⟨q, (rfl | hq), hqk⟩)
        · exact Or.inl (Or.inl hd)
        · exact Or.inl (Or.inr hqk.symm)
        · exact Or.inr ⟨q, hq, hqk⟩

/-- The batched fetch-and-merge loop of `fetch_vehicle_stats` (samsara.py
lines 117-162): one provider call per batch (re-truncated to 3 as in the
source's defensive `batch[:3]`), merging each successful response into the
accumulated snapshot and skipping failed batches. -/
def fetch_vehicle_stats_combined {V : Type}
    (provider : List String → Option (List (String × V)))
    (types : List String) : List (String × V) :=
  (chunk3 types).foldl
    (fun combined_stats batch =>
      match provider (batch.take 3) with
      | some batch_data => dictUpdate combined_stats batch_data
      | none => combined_stats)
    []

/-- `fetch_vehicle_stats` (samsara.py lines 82-181): defaulting of an empty
type list (line 106-107) and the final failure when no batch contributed any
data (lines 164-170). -/
def fetch_vehicle_stats {V : Type}
    (provider : List String → Option (List (String × V)))
    (types0 : List String) : Except String (List (String × V)) :=
  let types :=
    if types0 = [] then ["engineStates", "obdOdometerMeters", "fuelPercents"]
    else types0
  let combined_stats := fetch_vehicle_stats_combined provider types
  if combined_stats.isEmpty then
    Except.error "Failed to retrieve any vehicle stats data"
  else Except.ok combined_stats

/-- Key membership in the merge fold, over any batch list and accumulator. -/
lemma mem_keys_foldBatches {V : Type}
    (provider : List String → Option (List (String × V)))
    (bs : List (List String)) (acc : List (String × V)) (k : String) :
    k ∈ (bs.foldl
        (fun combined_stats batch =>
          match provider (batch.take 3) with
          | some batch_data => dictUpdate combined_stats batch_data
          | none => combined_stats) acc).map Prod.fst
      ↔ k ∈ acc.map Prod.fst
        ∨ ∃ b ∈ bs, ∃ data, provider (b.take 3) = some data
            ∧ ∃ p ∈ data, p.1 = k := by
  induction bs generalizing acc with
  | nil => simp
  | cons b t ih =>
      rw [List.foldl_cons]
      cases hpb : provider (b.take 3) with
      | none =>
          simp only [hpb]
          rw [ih acc]
          simp only [List.mem_cons]
          constructor
          · rintro (ha | ⟨b', hb', hd⟩)
            · exact Or.inl ha
            · exact Or.inr ⟨b', Or.inr hb', hd⟩
          · rintro (ha | ⟨b', (rfl | hb'), data, hdata, hmem⟩)
            · exact Or.inl ha
            · rw [hpb] at hdata
              cases hdata
            · exact Or.inr ⟨b', hb', data, hdata, hmem⟩
      | some data =>
          simp only [hpb]
          rw [ih (dictUpdate acc data), mem_keys_dictUpdate]
          simp only [List.mem_cons]
          constructor
          · rintro ((ha | ⟨p, hp, hpk⟩) | ⟨b', hb', hd⟩)
            · exact Or.inl ha
            · exact Or.inr ⟨b, Or.inl rfl, data, hpb, p, hp, hpk⟩
            · exact Or.inr ⟨b', Or.inr hb', hd⟩
          · rintro (ha | ⟨b', (rfl | hb'), data', hdata', hmem'⟩)
            · exact Or.inl (Or.inl ha)
            · rw [hpb] at hdata'
              cases hdata'
              exact Or.inl (Or.inr hmem')
            · exact Or.inr ⟨b', hb', data', hdata', hmem'⟩

/-- C7 (confirmed): `fetch_vehicle_stats` splits the requested type list into
consecutive batches of at most 3 whose concatenation is the original list
(8 types giving exactly 3 batches of sizes 3, 3, 2), issues one provider call
per batch, and the merged snapshot holds a field iff some successful batch
returned it — so a failing batch discards nothing merged from other
batches. -/
theorem c7_batching (types : List String)
    (provider : List String → Option (List (String × Int))) :
    (chunk3 types).flatten = types ∧
    (∀ b ∈ chunk3 types, b.length ≤ 3) ∧
    (types.length = 8 → (chunk3 types).map List.length = [3, 3, 2]) ∧
    (∀ k, k ∈ (fetch_vehicle_stats_combined provider types).map Prod.fst
      ↔ ∃ b ∈ chunk3 types, ∃ data, provider b = some data
          ∧ ∃ p ∈ data, p.1 = k) := by
  refine ⟨chunk3_flatten types, chunk3_length_le types,
    chunk3_sizes_8 types, ?_⟩
  intro k
  rw [fetch_vehicle_stats_combined, mem_keys_foldBatches]
  simp only [List.map_nil, List.not_mem_nil, false_or]
  constructor
  · rintro ⟨b, hb, data, hdata, hmem⟩
    rw [List.take_of_length_le (chunk3_length_le types b hb)] at hdata
    exact ⟨b, hb, data, hdata, hmem⟩
  · rintro ⟨b, hb, data, hdata, hmem⟩
    rw [← List.take_of_length_le (chunk3_length_le types b hb)] at hdata
    exact ⟨b, hb, data, hdata, hmem⟩

/-- C7 (witness): eight stat types, a provider that answers the first and
third batch but fails the second: the batch sizes are 3, 3, 2 and the merged
snapshot still contains the field contributed by the first batch. -/
theorem c7_batching_witness :
    (chunk3 ["s1", "s2", "s3", "s4", "s5", "s6", "s7", "s8"]).map List.length
      = [3, 3, 2] ∧
    "odo" ∈ (fetch_vehicle_stats_combined
        (fun b =>
          if b = ["s1", "s2", "s3"] then some [("odo", (7 : Int))]
          else if b = ["s7", "s8"] then some [("fuel", (9 : Int))]
          else none)
        ["s1", "s2", "s3", "s4", "s5", "s6", "s7", "s8"]).map Prod.fst := by
  constructor
  · exact (c7_batching ["s1", "s2", "s3", "s4", "s5", "s6", "s7", "s8"]
      (fun b =>
        if b = ["s1", "s2", "s3"] then some [("odo", (7 : Int))]
        else if b = ["s7", "s8"] then some [("fuel", (9 : Int))]
        else none)).2.2.1 rfl
  · exact ((c7_batching ["s1", "s2", "s3", "s4", "s5", "s6", "s7", "s8"]
      (fun b =>
        if b = ["s1", "s2", "s3"] then some [("odo", (7 : Int))]
        else if b = ["s7", "s8"] then some [("fuel", (9 : Int))]
        else none)).2.2.2 "odo").mpr
      ⟨["s1", "s2", "s3"], by decide, [("odo", (7 : Int))], by decide,
        ("odo", (7 : Int)), by decide, rfl⟩

/-!
## C8 — alert aggregation in `get_alerts`
(`src/backend/App/Api/endpoints/dashboard.py` lines 204-310)

Three per-category queries (each `LIMIT 5`) are mapped to alert dicts, the
three lists are concatenated, and

    severity_order = \x7b"Critical": 0, "High": 1, "Medium": 2, "Low": 3\x7d
    all_alerts.sort(key=lambda x: severity_order.get(x["severity"], 999))

Python's `list.sort` is stable; a stable sort by a key with finitely many
values equals the concatenation of the equal-key sublists in ascending key
order, which is how `sortBySeverity` embeds it (`severity_order` only takes
values in 0, 1, 2, 3, 999).
-/

/-- The fields of `models.PartsInventory` used by the alert feed. -/
structure PartsInventory where
  part_id : Int := 0
  part_number : String := ""
  name : String := ""
  quantity_on_hand : Int := 0
  minimum_quantity : Int := 0
  deriving Repr, DecidableEq

/-- One alert dict of the feed (the fields that identify it and its
severity). -/
structure Alert where
  type : String
  severity : String
  vehicle_id : Option Int := none
  code : Option String := none
  part_id : Option Int := none
  service : Option String := none
  deriving Repr, DecidableEq

/-- Diagnostic alert construction (dashboard.py lines 227-236):
`severity = code.severity or "Medium"`. -/
def mkDiagnosticAlert (row : DiagnosticCode × Vehicle) : Alert :=
  { type := "diagnostic_code"
    severity := pyOrStr row.1.severity "Medium"
    vehicle_id := some row.2.vehicle_id
    code := some row.1.code }

/-- Low-inventory alert construction (dashboard.py lines 248-257):
`"Critical" if quantity_on_hand == 0 else "High"`. -/
def mkInventoryAlert (part : PartsInventory) : Alert :=
  { type := "low_inventory"
    severity := if part.quantity_on_hand == 0 then "Critical" else "High"
    part_id := some part.part_id }

/-- Overdue-maintenance alert construction (dashboard.py lines 284-293):
severity is always `"High"`. -/
def mkMaintenanceAlert
    (row : VehicleMaintenanceSchedule × Vehicle × MaintenanceSchedule) :
    Alert :=
  { type := "overdue_maintenance"
    severity := "High"
    vehicle_id := some row.2.1.vehicle_id
    service := some row.2.2.name }

/-- The sort key of dashboard.py line 299-300:
`severity_order.get(x["severity"], 999)`. -/
def severity_order (s : String) : Nat :=
  if s == "Critical" then 0
  else if s == "High" then 1
  else if s == "Medium" then 2
  else if s == "Low" then 3
  else 999

/-- The stable sort of dashboard.py line 300, as the concatenation of the
equal-key classes in ascending key order (`severity_order` takes no value
outside 0, 1, 2, 3, 999). -/
def sortBySeverity (l : List Alert) : List Alert :=
  (l.filter (fun x => severity_order x.severity == 0))
    ++ (l.filter (fun x => severity_order x.severity == 1))
    ++ (l.filter (fun x => severity_order x.severity == 2))
    ++ (l.filter (fun x => severity_order x.severity == 3))
    ++ (l.filter (fun x => severity_order x.severity == 999))

/-- The response of `get_alerts` (dashboard.py lines 302-310). -/
structure AlertsResponse where
  alerts : List Alert
  total : Nat
  diagnostic : Nat
  inventory : Nat
  maintenance : Nat
  deriving Repr, DecidableEq

/-- `get_alerts` (dashboard.py lines 204-310) over the three per-category
query results, given in their retrieval order; the SQL `LIMIT 5` of each
query is the `take 5`. -/
def get_alerts (diagRows : List (DiagnosticCode × Vehicle))
    (invRows : List PartsInventory)
    (maintRows : List (VehicleMaintenanceSchedule × Vehicle
      × MaintenanceSchedule)) : AlertsResponse :=
  let diagnostic_alerts := (diagRows.take 5).map mkDiagnosticAlert
  let inventory_alerts := (invRows.take 5).map mkInventoryAlert
  let maintenance_alerts := (maintRows.take 5).map mkMaintenanceAlert
  let all_alerts :=
    sortBySeverity (diagnostic_alerts ++ inventory_alerts
      ++ maintenance_alerts)
  { alerts := all_alerts
    total := all_alerts.length
    diagnostic := diagnostic_alerts.length
    inventory := inventory_alerts.length
    maintenance := maintenance_alerts.length }

/-- `severity_order` takes no value outside 0, 1, 2, 3, 999. -/
lemma severity_order_cases (s : String) :
    severity_order s = 0 ∨ severity_order s = 1 ∨ severity_order s = 2
      ∨ severity_order s = 3 ∨ severity_order s = 999 := by
  unfold severity_order
  split
  · exact Or.inl rfl
  split
  · exact Or.inr (Or.inl rfl)
  split
  · exact Or.inr (Or.inr (Or.inl rfl))
  split
  · exact Or.inr (Or.inr (Or.inr (Or.inl rfl)))
  · exact Or.inr (Or.inr (Or.inr (Or.inr rfl)))

/-- Counting a fixed alert in a filtered list. -/
lemma count_filter_eq (p : Alert → Bool) (l : List Alert) (a : Alert) :
    (l.filter p).count a = if p a then l.count a else 0 := by
  by_cases h : p a = true
  · rw [if_pos h]
    exact List.count_filter h
  · rw [if_neg h]
    rw [List.count_eq_zero]
    intro hmem
    exact h (List.of_mem_filter hmem)

/-- Membership in an equal-key class determines the key. -/
lemma key_of_mem_filter {l : List Alert} {n : Nat} {x : Alert}
    (hx : x ∈ l.filter (fun x => severity_order x.severity == n)) :
    severity_order x.severity = n := by
  simpa using List.of_mem_filter hx

/-- The stable bucket sort is a permutation of its input. -/
lemma sortBySeverity_perm (l : List Alert) : (sortBySeverity l).Perm l := by
  rw [List.perm_iff_count]
  intro a
  unfold sortBySeverity
  simp only [List.count_append, count_filter_eq]
  rcases severity_order_cases a.severity with h | h | h | h | h
  all_goals simp [h]

/-- An equal-key class is internally sorted (all keys equal). -/
lemma pairwise_filter_le (l : List Alert) (n : Nat) :
    (l.filter (fun x => severity_order x.severity == n)).Pairwise
      (fun a b => severity_order a.severity ≤ severity_order b.severity) := by
  apply List.pairwise_of_forall_mem_list
  intro a ha b hb
  rw [key_of_mem_filter ha, key_of_mem_filter hb]

/-- The stable bucket sort is sorted by the severity key. -/
lemma sortBySeverity_sorted (l : List Alert) :
    (sortBySeverity l).Pairwise
      (fun a b => severity_order a.severity ≤ severity_order b.severity) := by
  unfold sortBySeverity
  simp only [List.append_assoc]
  refine List.pairwise_append.mpr ⟨pairwise_filter_le l 0, ?_, ?_⟩
  · refine List.pairwise_append.mpr ⟨pairwise_filter_le l 1, ?_, ?_⟩
    · refine List.pairwise_append.mpr ⟨pairwise_filter_le l 2, ?_, ?_⟩
      · refine List.pairwise_append.mpr
          ⟨pairwise_filter_le l 3, pairwise_filter_le l 999, ?_⟩
        intro a ha b hb
        rw [key_of_mem_filter ha, key_of_mem_filter hb]
        omega
      · intro a ha b hb
        rw [key_of_mem_filter ha]
        simp only [List.mem_append] at hb
        rcases hb with hb | hb
        all_goals rw [key_of_mem_filter hb]
        all_goals omega
    · intro a ha b hb
      rw [key_of_mem_filter ha]
      simp only [List.mem_append] at hb
      rcases hb with hb | hb | hb
      all_goals rw [key_of_mem_filter hb]
      all_goals omega
  · intro a ha b hb
    rw [key_of_mem_filter ha]
    simp only [List.mem_append] at hb
    rcases hb with hb | hb | hb | hb
    all_goals rw [key_of_mem_filter hb]
    all_goals omega

/-- Filtering one equal-key class out of another. -/
lemma filter_filter_key (l : List Alert) (r n : Nat) :
    (l.filter (fun x => severity_order x.severity == n)).filter
        (fun x => severity_order x.severity == r)
      = if r = n then l.filter (fun x => severity_order x.severity == n)
        else [] := by
  by_cases h : r = n
  · subst h
    rw [if_pos rfl]
    rw [List.filter_eq_self]
    intro a ha
    simpa using key_of_mem_filter ha
  · rw [if_neg h]
    rw [List.filter_eq_nil_iff]
    intro a ha
    have hk := key_of_mem_filter ha
    simp [hk]
    omega

/-- Stability of the bucket sort: each equal-key class of the output is the
equal-key class of the input, in the input's order. -/
lemma sortBySeverity_stable (l : List Alert) (r : Nat) :
    (sortBySeverity l).filter (fun x => severity_order x.severity == r)
      = l.filter (fun x => severity_order x.severity == r) := by
  unfold sortBySeverity
  simp only [List.filter_append]
  rw [filter_filter_key l r 0, filter_filter_key l r 1,
    filter_filter_key l r 2, filter_filter_key l r 3,
    filter_filter_key l r 999]
  by_cases h0 : r = 0
  · subst h0
    simp
  by_cases h1 : r = 1
  · subst h1
    simp
  by_cases h2 : r = 2
  · subst h2
    simp
  by_cases h3 : r = 3
  · subst h3
    simp
  by_cases h999 : r = 999
  · subst h999
    simp
  · rw [if_neg h0, if_neg h1, if_neg h2, if_neg h3, if_neg h999]
    simp only [List.append_nil, List.nil_append]
    symm
    rw [List.filter_eq_nil_iff]
    intro a ha
    rcases severity_order_cases a.severity with h | h | h | h | h
    all_goals simp [h]
    all_goals omega

/-- C8 (confirmed): the alert feed is a permutation of the concatenation of
at most 5 diagnostic, at most 5 low-inventory and at most 5
overdue-maintenance alerts, sorted ascending by the severity rank
(Critical 0, High 1, Medium 2, Low 3), with ties kept in the original
per-category retrieval order (every equal-rank class of the output equals
that class of the concatenation); the per-category counts are the number of
alerts each category contributed. -/
theorem c8_alert_feed (diagRows : List (DiagnosticCode × Vehicle))
    (invRows : List PartsInventory)
    (maintRows : List (VehicleMaintenanceSchedule × Vehicle
      × MaintenanceSchedule)) :
    (get_alerts diagRows invRows maintRows).alerts.Perm
        ((diagRows.take 5).map mkDiagnosticAlert
          ++ (invRows.take 5).map mkInventoryAlert
          ++ (maintRows.take 5).map mkMaintenanceAlert) ∧
    (get_alerts diagRows invRows maintRows).alerts.Pairwise
        (fun a b => severity_order a.severity ≤ severity_order b.severity) ∧
    (∀ r : Nat,
      (get_alerts diagRows invRows maintRows).alerts.filter
          (fun x => severity_order x.severity == r)
        = ((diagRows.take 5).map mkDiagnosticAlert
            ++ (invRows.take 5).map mkInventoryAlert
            ++ (maintRows.take 5).map mkMaintenanceAlert).filter
            (fun x => severity_order x.severity == r)) ∧
    (get_alerts diagRows invRows maintRows).diagnostic
        = ((diagRows.take 5).map mkDiagnosticAlert).length ∧
    (get_alerts diagRows invRows maintRows).inventory
        = ((invRows.take 5).map mkInventoryAlert).length ∧
    (get_alerts diagRows invRows maintRows).maintenance
        = ((maintRows.take 5).map mkMaintenanceAlert).length ∧
    (get_alerts diagRows invRows maintRows).total
        = (get_alerts diagRows invRows maintRows).alerts.length ∧
    (get_alerts diagRows invRows maintRows).diagnostic ≤ 5 ∧
    (get_alerts diagRows invRows maintRows).inventory ≤ 5 ∧
    (get_alerts diagRows invRows maintRows).maintenance ≤ 5 ∧
    severity_order "Critical" = 0 ∧ severity_order "High" = 1 ∧
    severity_order "Medium" = 2 ∧ severity_order "Low" = 3 := by
  refine ⟨sortBySeverity_perm _, sortBySeverity_sorted _,
    fun r => sortBySeverity_stable _ r, rfl, rfl, rfl, rfl, ?_, ?_, ?_,
    rfl, rfl, rfl, rfl⟩
  · show ((diagRows.take 5).map mkDiagnosticAlert).length ≤ 5
    rw [List.length_map]
    exact List.length_take_le 5 diagRows
  · show ((invRows.take 5).map mkInventoryAlert).length ≤ 5
    rw [List.length_map]
    exact List.length_take_le 5 invRows
  · show ((maintRows.take 5).map mkMaintenanceAlert).length ≤ 5
    rw [List.length_map]
    exact List.length_take_le 5 maintRows

/-!
## C9 — partial update in `update_maintenance_assignment`
(`src/backend/App/Api/endpoints/maintenance.py` lines 496-513)

    update_data = assignment_update.dict(exclude_unset=True)
    for key, value in update_data.items():
        setattr(db_assignment, key, value)
    if "last_performed_date" in update_data and schedule.is_time_based and schedule.time_interval_days:
        db_assignment.next_due_date = db_assignment.last_performed_date + timedelta(days=schedule.time_interval_days)
    if "last_performed_mileage" in update_data and schedule.is_mileage_based and schedule.mileage_interval:
        db_assignment.next_due_mileage = db_assignment.last_performed_mileage + schedule.mileage_interval
    if "last_performed_engine_hours" in update_data and schedule.is_engine_hours_based and schedule.engine_hours_interval:
        db_assignment.next_due_engine_hours = db_assignment.last_performed_engine_hours + schedule.engine_hours_interval

The request schema `VehicleMaintenanceScheduleUpdate` (schemas.py lines
339-345) also exposes the three `next_due_*` columns, which the setattr loop
writes directly with no recomputation. A field of the partial update is
embedded as `Option (Option Int)`: outer `none` = not in `update_data`,
inner value = the (nullable) value written by setattr. Writing an explicit
null to a `last_performed_*` field would make the recomputation add
`None + interval`, a Python `TypeError`, embedded as `Except.error`.
-/

/-- The request body `schemas.VehicleMaintenanceScheduleUpdate` with
pydantic's `exclude_unset` distinction: outer `none` means the field was not
sent. -/
structure VehicleMaintenanceScheduleUpdate where
  last_performed_date : Option (Option Int) := none
  last_performed_mileage : Option (Option Int) := none
  last_performed_engine_hours : Option (Option Int) := none
  next_due_date : Option (Option Int) := none
  next_due_mileage : Option (Option Int) := none
  next_due_engine_hours : Option (Option Int) := none
  deriving Repr, DecidableEq

/-- The setattr loop of maintenance.py lines 496-498: every field present in
`update_data` overwrites the stored column. -/
def applySetattr (db_assignment : VehicleMaintenanceSchedule)
    (u : VehicleMaintenanceScheduleUpdate) : VehicleMaintenanceSchedule :=
  { last_performed_date :=
      u.last_performed_date.getD db_assignment.last_performed_date
    last_performed_mileage :=
      u.last_performed_mileage.getD db_assignment.last_performed_mileage
    last_performed_engine_hours :=
      u.last_performed_engine_hours.getD
        db_assignment.last_performed_engine_hours
    next_due_date := u.next_due_date.getD db_assignment.next_due_date
    next_due_mileage :=
      u.next_due_mileage.getD db_assignment.next_due_mileage
    next_due_engine_hours :=
      u.next_due_engine_hours.getD db_assignment.next_due_engine_hours }

/-- The conditional recomputation of `next_due_date` (maintenance.py lines
502-503), on the post-setattr row. -/
def recomputeNextDueDate (schedule : MaintenanceSchedule)
    (u : VehicleMaintenanceScheduleUpdate)
    (a : VehicleMaintenanceSchedule) : Except String (Option Int) :=
  if u.last_performed_date.isSome && schedule.is_time_based
      && truthyInt schedule.time_interval_days then
    match a.last_performed_date with
    | some d => Except.ok (some (d + schedule.time_interval_days.getD 0))
    | none => Except.error "TypeError: NoneType + timedelta"
  else Except.ok a.next_due_date

/-- The conditional recomputation of `next_due_mileage` (maintenance.py
lines 506-507). -/
def recomputeNextDueMileage (schedule : MaintenanceSchedule)
    (u : VehicleMaintenanceScheduleUpdate)
    (a : VehicleMaintenanceSchedule) : Except String (Option Int) :=
  if u.last_performed_mileage.isSome && schedule.is_mileage_based
      && truthyInt schedule.mileage_interval then
    match a.last_performed_mileage with
    | some m => Except.ok (some (m + schedule.mileage_interval.getD 0))
    | none => Except.error "TypeError: NoneType + int"
  else Except.ok a.next_due_mileage

/-- The conditional recomputation of `next_due_engine_hours`
(maintenance.py lines 510-511). -/
def recomputeNextDueEngineHours (schedule : MaintenanceSchedule)
    (u : VehicleMaintenanceScheduleUpdate)
    (a : VehicleMaintenanceSchedule) : Except String (Option Int) :=
  if u.last_performed_engine_hours.isSome && schedule.is_engine_hours_based
      && truthyInt schedule.engine_hours_interval then
    match a.last_performed_engine_hours with
    | some h => Except.ok (some (h + schedule.engine_hours_interval.getD 0))
    | none => Except.error "TypeError: NoneType + Decimal"
  else Except.ok a.next_due_engine_hours

/-- `update_maintenance_assignment` (maintenance.py lines 496-513): setattr
every provided field, then recompute each `next_due_*` dimension whose
`last_performed_*` key was provided (and whose dimension is enabled with a
truthy interval). -/
def update_maintenance_assignment (schedule : MaintenanceSchedule)
    (db_assignment : VehicleMaintenanceSchedule)
    (u : VehicleMaintenanceScheduleUpdate) :
    Except String VehicleMaintenanceSchedule :=
  let a := applySetattr db_assignment u
  do
    let nd ← recomputeNextDueDate schedule u a
    let nm ← recomputeNextDueMileage schedule u a
    let nh ← recomputeNextDueEngineHours schedule u a
    Except.ok { a with
      next_due_date := nd
      next_due_mileage := nm
      next_due_engine_hours := nh }

/-- C9 (counterexample): an update that contains only a direct
`next_due_mileage := 99999` write — no `last_performed_*` field at all — is
accepted by the endpoint's schema and overwrites the stored
`next_due_mileage = 15000`; the next-due field of a dimension whose
last-performed field was not included does not retain its prior value. -/
theorem c9_counterexample :
    update_maintenance_assignment
        { is_mileage_based := true, mileage_interval := some 5000 }
        { next_due_mileage := some 15000 }
        { next_due_mileage := some (some 99999) }
      = Except.ok { next_due_mileage := some 99999 } ∧
    ({ next_due_mileage := some (some 99999) } :
        VehicleMaintenanceScheduleUpdate).last_performed_mileage = none ∧
    ({ next_due_mileage := some 15000 } :
        VehicleMaintenanceSchedule).next_due_mileage ≠ some 99999 := by
  refine ⟨rfl, rfl, by decide⟩

/-- A provided, non-null `last_performed_date` recomputes `next_due_date`
when the time dimension is enabled with a truthy interval, and keeps the
post-setattr value otherwise. -/
lemma recomputeNextDueDate_provided (s : MaintenanceSchedule)
    (u : VehicleMaintenanceScheduleUpdate) (a : VehicleMaintenanceSchedule)
    (v : Int) (h : u.last_performed_date = some (some v))
    (ha : a.last_performed_date = some v) :
    recomputeNextDueDate s u a
      = Except.ok
          (if (s.is_time_based && truthyInt s.time_interval_days) = true then
            some (v + s.time_interval_days.getD 0)
          else a.next_due_date) := by
  by_cases hs : (s.is_time_based && truthyInt s.time_interval_days) = true
  · simp [recomputeNextDueDate, h, ha, hs]
  · simp [recomputeNextDueDate, h, ha, hs]

/-- An absent `last_performed_date` leaves `next_due_date` untouched. -/
lemma recomputeNextDueDate_absent (s : MaintenanceSchedule)
    (u : VehicleMaintenanceScheduleUpdate) (a : VehicleMaintenanceSchedule)
    (h : u.last_performed_date = none) :
    recomputeNextDueDate s u a = Except.ok a.next_due_date := by
  simp [recomputeNextDueDate, h]

/-- A provided, non-null `last_performed_mileage` recomputes
`next_due_mileage` when the mileage dimension is enabled with a truthy
interval, and keeps the post-setattr value otherwise. -/
lemma recomputeNextDueMileage_provided (s : MaintenanceSchedule)
    (u : VehicleMaintenanceScheduleUpdate) (a : VehicleMaintenanceSchedule)
    (v : Int) (h : u.last_performed_mileage = some (some v))
    (ha : a.last_performed_mileage = some v) :
    recomputeNextDueMileage s u a
      = Except.ok
          (if (s.is_mileage_based && truthyInt s.mileage_interval) = true then
            some (v + s.mileage_interval.getD 0)
          else a.next_due_mileage) := by
  by_cases hs : (s.is_mileage_based && truthyInt s.mileage_interval) = true
  · simp [recomputeNextDueMileage, h, ha, hs]
  · simp [recomputeNextDueMileage, h, ha, hs]

/-- An absent `last_performed_mileage` leaves `next_due_mileage`
untouched. -/
lemma recomputeNextDueMileage_absent (s : MaintenanceSchedule)
    (u : VehicleMaintenanceScheduleUpdate) (a : VehicleMaintenanceSchedule)
    (h : u.last_performed_mileage = none) :
    recomputeNextDueMileage s u a = Except.ok a.next_due_mileage := by
  simp [recomputeNextDueMileage, h]

/-- A provided, non-null `last_performed_engine_hours` recomputes
`next_due_engine_hours` when that dimension is enabled with a truthy
interval, and keeps the post-setattr value otherwise. -/
lemma recomputeNextDueEngineHours_provided (s : MaintenanceSchedule)
    (u : VehicleMaintenanceScheduleUpdate) (a : VehicleMaintenanceSchedule)
    (v : Int) (h : u.last_performed_engine_hours = some (some v))
    (ha : a.last_performed_engine_hours = some v) :
    recomputeNextDueEngineHours s u a
      = Except.ok
          (if (s.is_engine_hours_based
              && truthyInt s.engine_hours_interval) = true then
            some (v + s.engine_hours_interval.getD 0)
          else a.next_due_engine_hours) := by
  by_cases hs : (s.is_engine_hours_based
      && truthyInt s.engine_hours_interval) = true
  · simp [recomputeNextDueEngineHours, h, ha, hs]
  · simp [recomputeNextDueEngineHours, h, ha, hs]

/-- An absent `last_performed_engine_hours` leaves `next_due_engine_hours`
untouched. -/
lemma recomputeNextDueEngineHours_absent (s : MaintenanceSchedule)
    (u : VehicleMaintenanceScheduleUpdate) (a : VehicleMaintenanceSchedule)
    (h : u.last_performed_engine_hours = none) :
    recomputeNextDueEngineHours s u a = Except.ok a.next_due_engine_hours := by
  simp [recomputeNextDueEngineHours, h]

/-- A well-formed update never makes the date recomputation fail. -/
lemma recomputeNextDueDate_isOk (s : MaintenanceSchedule)
    (db : VehicleMaintenanceSchedule) (u : VehicleMaintenanceScheduleUpdate)
    (hw : u.last_performed_date ≠ some none) :
    ∃ d, recomputeNextDueDate s u (applySetattr db u) = Except.ok d := by
  rcases hu : u.last_performed_date with _ | ov
  · exact ⟨_, recomputeNextDueDate_absent s u _ hu⟩
  · rcases ov with _ | v
    · exact absurd hu hw
    · exact ⟨_, recomputeNextDueDate_provided s u _ v hu
        (by simp [applySetattr, hu])⟩

/-- A well-formed update never makes the mileage recomputation fail. -/
lemma recomputeNextDueMileage_isOk (s : MaintenanceSchedule)
    (db : VehicleMaintenanceSchedule) (u : VehicleMaintenanceScheduleUpdate)
    (hw : u.last_performed_mileage ≠ some none) :
    ∃ d, recomputeNextDueMileage s u (applySetattr db u) = Except.ok d := by
  rcases hu : u.last_performed_mileage with _ | ov
  · exact ⟨_, recomputeNextDueMileage_absent s u _ hu⟩
  · rcases ov with _ | v
    · exact absurd hu hw
    · exact ⟨_, recomputeNextDueMileage_provided s u _ v hu
        (by simp [applySetattr, hu])⟩

/-- A well-formed update never makes the engine-hours recomputation fail. -/
lemma recomputeNextDueEngineHours_isOk (s : MaintenanceSchedule)
    (db : VehicleMaintenanceSchedule) (u : VehicleMaintenanceScheduleUpdate)
    (hw : u.last_performed_engine_hours ≠ some none) :
    ∃ d, recomputeNextDueEngineHours s u (applySetattr db u)
      = Except.ok d := by
  rcases hu : u.last_performed_engine_hours with _ | ov
  · exact ⟨_, recomputeNextDueEngineHours_absent s u _ hu⟩
  · rcases ov with _ | v
    · exact absurd hu hw
    · exact ⟨_, recomputeNextDueEngineHours_provided s u _ v hu
        (by simp [applySetattr, hu])⟩

/-- Evaluating the update once the three recomputations are resolved. -/
lemma update_maintenance_assignment_eval (s : MaintenanceSchedule)
    (db : VehicleMaintenanceSchedule) (u : VehicleMaintenanceScheduleUpdate)
    (d1 d2 d3 : Option Int)
    (h1 : recomputeNextDueDate s u (applySetattr db u) = Except.ok d1)
    (h2 : recomputeNextDueMileage s u (applySetattr db u) = Except.ok d2)
    (h3 : recomputeNextDueEngineHours s u (applySetattr db u)
      = Except.ok d3) :
    update_maintenance_assignment s db u
      = Except.ok { applySetattr db u with
          next_due_date := d1
          next_due_mileage := d2
          next_due_engine_hours := d3 } := by
  simp only [update_maintenance_assignment, h1, h2, h3]
  rfl

/-- C9 (amended): for an update that touches no `next_due_*` field and sends
no explicit null for a `last_performed_*` field, the endpoint succeeds;
writing a `last_performed_*` field recomputes only the corresponding
`next_due_*` field (to the new value plus the template interval, when that
dimension is enabled with a truthy interval), and every `next_due_*` field of
a dimension whose `last_performed_*` field was not included retains its prior
value. However, the request schema also accepts direct `next_due_*` writes,
which bypass recomputation and overwrite those fields (see the
counterexample). -/
theorem c9_update_frame (s : MaintenanceSchedule)
    (db : VehicleMaintenanceSchedule) (u : VehicleMaintenanceScheduleUpdate)
    (hnd : u.next_due_date = none) (hnm : u.next_due_mileage = none)
    (hnh : u.next_due_engine_hours = none)
    (hwd : u.last_performed_date ≠ some none)
    (hwm : u.last_performed_mileage ≠ some none)
    (hwh : u.last_performed_engine_hours ≠ some none) :
    (∃ a', update_maintenance_assignment s db u = Except.ok a') ∧
    (u.last_performed_date = none →
      (update_maintenance_assignment s db u).map (·.next_due_date)
        = Except.ok db.next_due_date) ∧
    (u.last_performed_mileage = none →
      (update_maintenance_assignment s db u).map (·.next_due_mileage)
        = Except.ok db.next_due_mileage) ∧
    (u.last_performed_engine_hours = none →
      (update_maintenance_assignment s db u).map (·.next_due_engine_hours)
        = Except.ok db.next_due_engine_hours) ∧
    (∀ v, u.last_performed_date = some (some v) →
      (s.is_time_based && truthyInt s.time_interval_days) = true →
      (update_maintenance_assignment s db u).map (·.next_due_date)
        = Except.ok (some (v + s.time_interval_days.getD 0))) ∧
    (∀ v, u.last_performed_mileage = some (some v) →
      (s.is_mileage_based && truthyInt s.mileage_interval) = true →
      (update_maintenance_assignment s db u).map (·.next_due_mileage)
        = Except.ok (some (v + s.mileage_interval.getD 0))) ∧
    (∀ v, u.last_performed_engine_hours = some (some v) →
      (s.is_engine_hours_based && truthyInt s.engine_hours_interval) = true →
      (update_maintenance_assignment s db u).map (·.next_due_engine_hours)
        = Except.ok (some (v + s.engine_hours_interval.getD 0))) := by
  obtain ⟨d1, h1⟩ := recomputeNextDueDate_isOk s db u hwd
  obtain ⟨d2, h2⟩ := recomputeNextDueMileage_isOk s db u hwm
  obtain ⟨d3, h3⟩ := recomputeNextDueEngineHours_isOk s db u hwh
  have hupd := update_maintenance_assignment_eval s db u d1 d2 d3 h1 h2 h3
  refine ⟨⟨_, hupd⟩, ?_, ?_, ?_, ?_, ?_, ?_⟩
  · intro h
    rw [recomputeNextDueDate_absent s u _ h] at h1
    cases h1
    rw [hupd]
    simp [applySetattr, hnd, Except.map]
  · intro h
    rw [recomputeNextDueMileage_absent s u _ h] at h2
    cases h2
    rw [hupd]
    simp [applySetattr, hnm, Except.map]
  · intro h
    rw [recomputeNextDueEngineHours_absent s u _ h] at h3
    cases h3
    rw [hupd]
    simp [applySetattr, hnh, Except.map]
  · intro v h hs
    rw [recomputeNextDueDate_provided s u _ v h
      (by simp [applySetattr, h])] at h1
    rw [if_pos hs] at h1
    cases h1
    rw [hupd]
    simp [Except.map]
  · intro v h hs
    rw [recomputeNextDueMileage_provided s u _ v h
      (by simp [applySetattr, h])] at h2
    rw [if_pos hs] at h2
    cases h2
    rw [hupd]
    simp [Except.map]
  · intro v h hs
    rw [recomputeNextDueEngineHours_provided s u _ v h
      (by simp [applySetattr, h])] at h3
    rw [if_pos hs] at h3
    cases h3
    rw [hupd]
    simp [Except.map]

/-- C9 (witness): updating only `last_performed_mileage = 20000` on a
template with intervals 5000 miles / 90 days recomputes `next_due_mileage`
to 25000 while `next_due_date` and `next_due_engine_hours` keep their stored
values. -/
theorem c9_update_frame_witness :
    (update_maintenance_assignment
        { is_mileage_based := true, is_time_based := true,
          mileage_interval := some 5000, time_interval_days := some 90 }
        { next_due_date := some 100, next_due_mileage := some 15000,
          next_due_engine_hours := some 777 }
        { last_performed_mileage := some (some 20000) }).map
        (·.next_due_mileage)
      = Except.ok (some 25000) ∧
    (update_maintenance_assignment
        { is_mileage_based := true, is_time_based := true,
          mileage_interval := some 5000, time_interval_days := some 90 }
        { next_due_date := some 100, next_due_mileage := some 15000,
          next_due_engine_hours := some 777 }
        { last_performed_mileage := some (some 20000) }).map
        (·.next_due_date)
      = Except.ok (some 100) ∧
    (update_maintenance_assignment
        { is_mileage_based := true, is_time_based := true,
          mileage_interval := some 5000, time_interval_days := some 90 }
        { next_due_date := some 100, next_due_mileage := some 15000,
          next_due_engine_hours := some 777 }
        { last_performed_mileage := some (some 20000) }).map
        (·.next_due_engine_hours)
      = Except.ok (some 777) := by
  have h := c9_update_frame
      { is_mileage_based := true, is_time_based := true,
        mileage_interval := some 5000, time_interval_days := some 90 }
      { next_due_date := some 100, next_due_mileage := some 15000,
        next_due_engine_hours := some 777 }
      { last_performed_mileage := some (some 20000) }
      rfl rfl rfl (by decide) (by decide) (by decide)
  refine ⟨?_, ?_, ?_⟩
  · exact h.2.2.2.2.2.1 20000 rfl rfl
  · exact h.2.1 rfl
  · exact h.2.2.2.1 rfl

/-!
## C10 — completion preconditions in `complete_maintenance`
(`src/backend/App/Api/endpoints/maintenance.py` lines 600-650)

    db_assignment.last_performed_date = completion.completion_date or datetime.utcnow()
    if completion.current_mileage:
        db_assignment.last_performed_mileage = completion.current_mileage
        if not vehicle.mileage or completion.current_mileage > vehicle.mileage:
            vehicle.mileage = completion.current_mileage
    else:
        db_assignment.last_performed_mileage = vehicle.mileage
    ... (engine hours analogous) ...
    if schedule.is_mileage_based and schedule.mileage_interval:
        db_assignment.next_due_mileage = db_assignment.last_performed_mileage + schedule.mileage_interval

When the completion supplies no (nonzero) `current_mileage` and the vehicle
stores no mileage, `last_performed_mileage` is `None` and the `+` on line
624 raises a `TypeError` before the `db.commit()` on line 666, so nothing is
persisted; the `Except.error` result models exactly that. The optional
work-order creation (lines 629-647) follows the next-due computation and is
not modelled — no claim depends on it.
-/

/-- The request body `schemas.MaintenanceCompletion` (with the
`create_work_order` attribute line 631 reads). -/
structure MaintenanceCompletion where
  completion_date : Option Int := none
  current_mileage : Option Int := none
  current_engine_hours : Option Int := none
  technician_id : Option Int := none
  notes : Option String := none
  create_work_order : Bool := false
  deriving Repr, DecidableEq

/-- `complete_maintenance` (maintenance.py lines 600-650), returning the
updated assignment row and vehicle row, or the `TypeError` of the `None +`
additions on lines 624 / 627. -/
def complete_maintenance (schedule : MaintenanceSchedule) (vehicle : Vehicle)
    (db_assignment : VehicleMaintenanceSchedule)
    (completion : MaintenanceCompletion) (now : Int) :
    Except String (VehicleMaintenanceSchedule × Vehicle) :=
  let last_performed_date : Option Int :=
    some (completion.completion_date.getD now)
  let last_performed_mileage : Option Int :=
    if truthyInt completion.current_mileage then completion.current_mileage
    else vehicle.mileage
  let vehicle_mileage : Option Int :=
    if truthyInt completion.current_mileage
        && (!truthyInt vehicle.mileage
          || vehicle.mileage.getD 0 < completion.current_mileage.getD 0) then
      completion.current_mileage
    else vehicle.mileage
  let last_performed_engine_hours : Option Int :=
    if truthyInt completion.current_engine_hours then
      completion.current_engine_hours
    else vehicle.engine_hours
  let vehicle_engine_hours : Option Int :=
    if truthyInt completion.current_engine_hours
        && (!truthyInt vehicle.engine_hours
          || vehicle.engine_hours.getD 0
            < completion.current_engine_hours.getD 0) then
      completion.current_engine_hours
    else vehicle.engine_hours
  let next_due_date : Option Int :=
    if schedule.is_time_based && truthyInt schedule.time_interval_days then
      some (completion.completion_date.getD now
        + schedule.time_interval_days.getD 0)
    else db_assignment.next_due_date
  let nmE : Except String (Option Int) :=
    if schedule.is_mileage_based && truthyInt schedule.mileage_interval then
      match last_performed_mileage with
      | some m => Except.ok (some (m + schedule.mileage_interval.getD 0))
      | none => Except.error "TypeError: NoneType + int"
    else Except.ok db_assignment.next_due_mileage
  let nhE : Except String (Option Int) :=
    if schedule.is_engine_hours_based
        && truthyInt schedule.engine_hours_interval then
      match last_performed_engine_hours with
      | some h => Except.ok (some (h + schedule.engine_hours_interval.getD 0))
      | none => Except.error "TypeError: NoneType + Decimal"
    else Except.ok db_assignment.next_due_engine_hours
  match nmE, nhE with
  | Except.error e, _ => Except.error e
  | Except.ok _, Except.error e => Except.error e
  | Except.ok nm, Except.ok nh =>
      Except.ok
        ({ db_assignment with
            last_performed_date := last_performed_date
            last_performed_mileage := last_performed_mileage
            last_performed_engine_hours := last_performed_engine_hours
            next_due_date := next_due_date
            next_due_mileage := nm
            next_due_engine_hours := nh },
          { vehicle with
              mileage := vehicle_mileage
              engine_hours := vehicle_engine_hours
              last_service_date := some (completion.completion_date.getD now) })

/-- A successful projection of an `Except` implies a successful result. -/
lemma exists_ok_of_map_ok {α β : Type} (f : α → β) (e : Except String α)
    (y : β) (h : e.map f = Except.ok y) : ∃ r, e = Except.ok r := by
  cases e with
  | error err => simp [Except.map] at h
  | ok r => exact ⟨r, rfl⟩

/-- C10 (confirmed): `complete()` on an assignment whose template is
mileage-based (respectively engine-hours-based, each with a truthy interval
and the other magnitude dimension disabled) computes the next-due value by
adding the interval to the resulting last-performed value, which defaults to
the vehicle's stored value when the completion omits (or zeroes) its own;
the operation succeeds iff the completion supplies a nonzero
`current_mileage` (respectively `current_engine_hours`) or the vehicle has a
stored value for that field — when both are absent the `None + interval`
error is reached and nothing is persisted (no row is returned). -/
theorem c10_complete_guard (s : MaintenanceSchedule) (v : Vehicle)
    (a : VehicleMaintenanceSchedule) (c : MaintenanceCompletion) (now : Int) :
    (s.is_mileage_based = true → truthyInt s.mileage_interval = true →
      s.is_engine_hours_based = false →
      (((∃ r, complete_maintenance s v a c now = Except.ok r)
          ↔ (truthyInt c.current_mileage = true ∨ v.mileage.isSome = true)) ∧
        (∀ r, complete_maintenance s v a c now = Except.ok r →
          r.1.next_due_mileage
            = some ((if truthyInt c.current_mileage = true then
                c.current_mileage.getD 0 else v.mileage.getD 0)
              + s.mileage_interval.getD 0)) ∧
        (truthyInt c.current_mileage = false → v.mileage = none →
          complete_maintenance s v a c now
            = Except.error "TypeError: NoneType + int"))) ∧
    (s.is_engine_hours_based = true →
      truthyInt s.engine_hours_interval = true → s.is_mileage_based = false →
      (((∃ r, complete_maintenance s v a c now = Except.ok r)
          ↔ (truthyInt c.current_engine_hours = true
            ∨ v.engine_hours.isSome = true)) ∧
        (∀ r, complete_maintenance s v a c now = Except.ok r →
          r.1.next_due_engine_hours
            = some ((if truthyInt c.current_engine_hours = true then
                c.current_engine_hours.getD 0 else v.engine_hours.getD 0)
              + s.engine_hours_interval.getD 0)) ∧
        (truthyInt c.current_engine_hours = false → v.engine_hours = none →
          complete_maintenance s v a c now
            = Except.error "TypeError: NoneType + Decimal"))) := by
  constructor
  · intro hsm hsi hse
    by_cases hcm : truthyInt c.current_mileage = true
    · obtain ⟨mv, hv⟩ : ∃ mv, c.current_mileage = some mv := by
        cases hc : c.current_mileage
        · rw [hc] at hcm
          simp [truthyInt] at hcm
        · exact ⟨_, rfl⟩
      have hcm2 : truthyInt (some mv) = true := hv ▸ hcm
      have hproj : (complete_maintenance s v a c now).map
          (fun r => r.1.next_due_mileage)
          = Except.ok (some (mv + s.mileage_interval.getD 0)) := by
        simp [complete_maintenance, hsm, hsi, hse, hcm, hv, hcm2, Except.map]
      refine ⟨⟨fun _ => Or.inl hcm,
        fun _ => exists_ok_of_map_ok _ _ _ hproj⟩, ?_, ?_⟩
      · intro r hr
        rw [hr] at hproj
        simp [Except.map] at hproj
        rw [hproj]
        simp [hcm, hv, hcm2]
      · intro h
        rw [h] at hcm
        exact absurd hcm (by decide)
    · have hcm' : truthyInt c.current_mileage = false :=
        Bool.eq_false_iff.mpr hcm
      rcases hvm : v.mileage with _ | m
      · have heval : complete_maintenance s v a c now
            = Except.error "TypeError: NoneType + int" := by
          simp [complete_maintenance, hsm, hsi, hse, hcm', hvm]
        refine ⟨⟨?_, ?_⟩, ?_, ?_⟩
        · rintro ⟨r, hr⟩
          rw [heval] at hr
          cases hr
        · rintro (h | h)
          · rw [h] at hcm'
            exact absurd hcm' (by decide)
          · simp [hvm] at h
        · intro r hr
          rw [heval] at hr
          cases hr
        · intro _ _
          exact heval
      · have hproj : (complete_maintenance s v a c now).map
            (fun r => r.1.next_due_mileage)
            = Except.ok (some (m + s.mileage_interval.getD 0)) := by
          simp [complete_maintenance, hsm, hsi, hse, hcm', hvm, Except.map]
        refine ⟨⟨fun _ => Or.inr (by simp [hvm]),
          fun _ => exists_ok_of_map_ok _ _ _ hproj⟩, ?_, ?_⟩
        · intro r hr
          rw [hr] at hproj
          simp [Except.map] at hproj
          rw [hproj]
          simp [hcm', hvm]
        · intro _ h
          simp [hvm] at h
  · intro hsh hsi hsm
    by_cases hch : truthyInt c.current_engine_hours = true
    · obtain ⟨hv', hv⟩ : ∃ hv', c.current_engine_hours = some hv' := by
        cases hc : c.current_engine_hours
        · rw [hc] at hch
          simp [truthyInt] at hch
        · exact ⟨_, rfl⟩
      have hch2 : truthyInt (some hv') = true := hv ▸ hch
      have hproj : (complete_maintenance s v a c now).map
          (fun r => r.1.next_due_engine_hours)
          = Except.ok (some (hv' + s.engine_hours_interval.getD 0)) := by
        simp [complete_maintenance, hsh, hsi, hsm, hch, hv, hch2, Except.map]
      refine ⟨⟨fun _ => Or.inl hch,
        fun _ => exists_ok_of_map_ok _ _ _ hproj⟩, ?_, ?_⟩
      · intro r hr
        rw [hr] at hproj
        simp [Except.map] at hproj
        rw [hproj]
        simp [hch, hv, hch2]
      · intro h
        rw [h] at hch
        exact absurd hch (by decide)
    · have hch' : truthyInt c.current_engine_hours = false :=
        Bool.eq_false_iff.mpr hch
      rcases hvh : v.engine_hours with _ | h0
      · have heval : complete_maintenance s v a c now
            = Except.error "TypeError: NoneType + Decimal" := by
          simp [complete_maintenance, hsh, hsi, hsm, hch', hvh]
        refine ⟨⟨?_, ?_⟩, ?_, ?_⟩
        · rintro ⟨r, hr⟩
          rw [heval] at hr
          cases hr
        · rintro (h | h)
          · rw [h] at hch'
            exact absurd hch' (by decide)
          · simp [hvh] at h
        · intro r hr
          rw [heval] at hr
          cases hr
        · intro _ _
          exact heval
      · have hproj : (complete_maintenance s v a c now).map
            (fun r => r.1.next_due_engine_hours)
            = Except.ok (some (h0 + s.engine_hours_interval.getD 0)) := by
          simp [complete_maintenance, hsh, hsi, hsm, hch', hvh, Except.map]
        refine ⟨⟨fun _ => Or.inr (by simp [hvh]),
          fun _ => exists_ok_of_map_ok _ _ _ hproj⟩, ?_, ?_⟩
        · intro r hr
          rw [hr] at hproj
          simp [Except.map] at hproj
          rw [hproj]
          simp [hch', hvh]
        · intro _ h
          simp [hvh] at h

/-- C10 (witness): a mileage-based template (interval 5000) completed with no
current mileage against a vehicle with no stored mileage errors before
returning anything, while a vehicle with stored mileage 16000 completes
successfully; the engine-hours dimension behaves symmetrically. -/
theorem c10_complete_guard_witness :
    complete_maintenance
        { is_mileage_based := true, mileage_interval := some 5000 }
        { } { } { } 0
      = Except.error "TypeError: NoneType + int" ∧
    (∃ r, complete_maintenance
        { is_mileage_based := true, mileage_interval := some 5000 }
        { mileage := some 16000 } { } { } 0
      = Except.ok r) ∧
    complete_maintenance
        { is_engine_hours_based := true, engine_hours_interval := some 50 }
        { } { } { } 0
      = Except.error "TypeError: NoneType + Decimal" := by
  refine ⟨?_, ?_, ?_⟩
  · exact ((c10_complete_guard
      { is_mileage_based := true, mileage_interval := some 5000 }
      { } { } { } 0).1 rfl (by decide) rfl).2.2 (by decide) rfl
  · exact (((c10_complete_guard
      { is_mileage_based := true, mileage_interval := some 5000 }
      { mileage := some 16000 } { } { } 0).1 rfl (by decide) rfl).1).mpr
      (Or.inr (by decide))
  · exact ((c10_complete_guard
      { is_engine_hours_based := true, engine_hours_interval := some 50 }
      { } { } { } 0).2 rfl (by decide) rfl).2.2 (by decide) rfl

end FleetDMS
